import Mathlib

/-
Verification of the jobpost-helper service (src/main.py) against its
natural-language specification.

The Python source is shallowly embedded: pure string manipulation is
translated to Lean functions over `String` / `List Char` (Python strings
are sequences of code points, which `List Char` models exactly); the
external collaborators (requests + BeautifulSoup fetch/parse, the ollama
model client, PyPDF2 / python-docx extraction, UTF-8 decoding) are
inputs to the embedded functions, given as values describing the
collaborator's outcome (a parsed page or a raised exception, a model
response or a raised exception, ...).  Python exception control flow is
embedded with `Except`; FastAPI's `HTTPException` and generic exceptions
are the two constructors of `PyExn`, and a `try/except Exception` block
is a `match` on the `Except` result of the block's body.

Python's `str.lower` / `\w` / `\b` are modelled on the ASCII fragment
(the only fragment the program's fixed token lists exercise);
`str.strip` is modelled by stripping the ASCII whitespace
characters (`trimL`).
-/

/-! ## Basic string utilities (Python substring / find semantics) -/

/-- Index of the first occurrence of `pat` in `l` starting from index `i`
(Python `str.find`, restricted to the tail). -/
def firstOccurAux (pat : List Char) : List Char → Nat → Option Nat
  | [], i => if pat = [] then some i else none
  | t@(_ :: rest), i =>
    if pat.isPrefixOf t then some i else firstOccurAux pat rest (i + 1)

/-- Python `s.find(pat)` returning `none` instead of `-1`. -/
def firstOccur (pat l : List Char) : Option Nat := firstOccurAux pat l 0

/-- Python `pat in l` (substring containment) on character lists. -/
def containsL (pat l : List Char) : Bool := (firstOccur pat l).isSome

/-- Python `pat in s` (substring containment) on strings. -/
def containsStr (pat s : String) : Bool := containsL pat.data s.data

/-- Python `str.lower` on a character list (ASCII fragment). -/
def pyLowerL (l : List Char) : List Char := l.map Char.toLower

/-- Python `str.lower` (ASCII fragment). -/
def pyLower (s : String) : String := String.mk (pyLowerL s.data)

/-- Python `str.endswith`. -/
def pyEndsWith (s suffix : String) : Bool := suffix.data.isSuffixOf s.data

/-- Python `str.startswith`. -/
def pyStartsWith (s pre : String) : Bool := pre.data.isPrefixOf s.data

/-- Python regex `\s` (ASCII whitespace characters, the characters
`str.strip` removes from ASCII text). -/
def isSpaceCls (c : Char) : Bool :=
  c = ' ' || c = '\t' || c = '\n' || c = '\r' || c = '\x0b' || c = '\x0c'

/-- Python `str.strip()` on a character list. -/
def trimL (l : List Char) : List Char :=
  ((l.dropWhile isSpaceCls).reverse.dropWhile isSpaceCls).reverse

/-- Python `str.strip()`. -/
def pyStrip (s : String) : String := String.mk (trimL s.data)

/-- Python `str.split(sep)` for a one-character separator (every
separator the program splits on is one character). -/
def pySplitChar (sep : Char) (s : String) : List String :=
  (s.data.splitOn sep).map String.mk

/-- Python `str.replace(pat, repl)` for a non-empty `pat`: replace all
non-overlapping occurrences, left to right.  `fuel` bounds the
recursion by the remaining length (each step consumes at least one
character). -/
def replaceAllLAux (pat repl : List Char) : Nat → List Char → List Char
  | 0, l => l
  | _ + 1, [] => []
  | fuel + 1, c :: rest =>
    if pat.isPrefixOf (c :: rest) && !pat.isEmpty then
      repl ++ replaceAllLAux pat repl fuel ((c :: rest).drop pat.length)
    else c :: replaceAllLAux pat repl fuel rest

/-- Python `str.replace(pat, repl)`. -/
def pyReplace (s pat repl : String) : String :=
  String.mk (replaceAllLAux pat.data repl.data s.data.length s.data)

/-! ## The fetched page, as produced by requests + BeautifulSoup

`requests.get` does not raise on a non-2xx status (the program never
calls `raise_for_status`), so a fetch that reaches the server always
yields a page; network-level failures raise, carrying a message.  The
parsed page is modelled by the four queries the program performs on the
soup: the `<title>` text, the `<meta>` tags (name/content attributes),
the `href` values of the anchors, and the flattened page text. -/

structure MetaTag where
  name : Option String
  content : Option String

structure Page where
  title : Option String
  metas : List MetaTag
  anchors : List String
  text : String

/-! ## The client-name regular expression

`re.findall(r'\b[A-Z][a-zA-Z\s&]+(?:\.com|\.be|\.eu|\.org)?\b', context)`
from the client extraction step, implemented as a backtracking matcher
with Python's leftmost, non-overlapping `findall` scan order: at each
position, the greedy `+` body tries its longest extent first, then the
optional suffix alternatives in order (then the empty suffix), then the
final word boundary is checked. -/

/-- Python regex `\w` on the ASCII fragment. -/
def wordChar (c : Char) : Bool := c.isAlphanum || c = '_'

/-- The character class `[a-zA-Z\s&]` of the client regex body. -/
def patClass (c : Char) : Bool := c.isAlpha || isSpaceCls c || c = '&'

/-- The optional domain suffixes `(?:\.com|\.be|\.eu|\.org)?`, in the
order the alternation tries them. -/
def clientSuffixes : List (List Char) :=
  [".com".data, ".be".data, ".eu".data, ".org".data]

/-- Does a word boundary `\b` hold between a last consumed character and
the rest of the input? -/
def boundaryAfter (lastC : Char) (rest : List Char) : Bool :=
  match rest with
  | [] => wordChar lastC
  | n :: _ => wordChar lastC != wordChar n

/-- Try the suffix alternatives (then the empty suffix) at `rest`, where
`bodyLast` is the last character of the greedy body.  Returns the
consumed suffix and the remaining input. -/
def trySuffixes (bodyLast : Char) (rest : List Char) : Option (List Char × List Char) :=
  go clientSuffixes
where
  go : List (List Char) → Option (List Char × List Char)
    | [] => if boundaryAfter bodyLast rest then some ([], rest) else none
    | sfx :: alts =>
      if sfx.isPrefixOf rest then
        let rem := rest.drop sfx.length
        match sfx.getLast? with
        | some lc => if boundaryAfter lc rem then some (sfx, rem) else go alts
        | none => go alts
      else go alts

/-- Backtrack over the body length (longest first); `run` is the maximal
run of body-class characters after the `[A-Z]` head. -/
def tryBodyLen (head : Char) (run : List Char) (afterRun : List Char) :
    Nat → Option (List Char × List Char)
  | 0 => none
  | k + 1 =>
    let body := run.take (k + 1)
    let rest := run.drop (k + 1) ++ afterRun
    match trySuffixes (body.getLastD head) rest with
    | some (sfx, rem) => some (head :: body ++ sfx, rem)
    | none => tryBodyLen head run afterRun k

/-- Try to match the client regex at the start of `l` (the leading word
boundary has already been checked by the scanner). -/
def tryMatchClient : List Char → Option (List Char × List Char)
  | [] => none
  | c :: rest =>
    if c.isUpper then
      let run := rest.takeWhile patClass
      let afterRun := rest.drop run.length
      tryBodyLen c run afterRun run.length
    else none

/-- `re.findall` scan: leftmost, non-overlapping matches.  `prevWord`
records whether the character before the current position is a word
character (for the leading `\b`; the head `[A-Z]` is a word character,
so the boundary holds exactly when `prevWord` is false).  `fuel` bounds
the recursion by the remaining length; every step consumes at least one
character, so fuel equal to the input length is never exhausted. -/
def findallClientsAux : Nat → Bool → List Char → List String
  | 0, _, _ => []
  | _ + 1, _, [] => []
  | fuel + 1, prevWord, l@(c :: rest) =>
    match (if !prevWord then tryMatchClient l else none) with
    | some (m, rem) =>
      String.mk m :: findallClientsAux fuel (wordChar (m.getLastD c)) rem
    | none => findallClientsAux fuel (wordChar c) rest

/-- All matches of the client regex in `context` (Python `re.findall`). -/
def findallClients (context : List Char) : List String :=
  findallClientsAux (context.length + 1) false context

/-! ## Heuristic keyword-window extraction (analyze_company, lines 251-289)

For each indicator phrase of a set, the code checks `indicator in
page_text`, slices `page_text[start_idx : start_idx + window]` at the
phrase's first occurrence, applies a secondary pattern inside that
window, and `extend`s the accumulated list with the (possibly capped)
result.  The per-indicator contributions are concatenated in indicator
order. -/

def clientIndicators : List String :=
  ["clients", "customers", "partners", "we work with", "our clients", "trusted by"]

def techIndicators : List String :=
  ["technologies", "tech stack", "we use", "built with", "developed with"]

def projectIndicators : List String :=
  ["projects", "portfolio", "case studies", "we built", "we developed"]

def techTerms : List String :=
  ["react", "angular", "vue", "node.js", "python", "java", "php",
   "wordpress", "shopify", "aws", "azure", "docker", "kubernetes"]

def projectKeywords : List String := ["app", "website", "system", "platform", "tool"]

/-- The indicator loop shared by the three extraction passes. -/
def keywordWindows (pageText : List Char) (indicators : List String) (window : Nat)
    (inner : List Char → List String) : List String :=
  match indicators with
  | [] => []
  | ind :: rest =>
    (match firstOccur ind.data pageText with
     | some i => inner ((pageText.drop i).take window)
     | none => []) ++ keywordWindows pageText rest window inner

/-- Client pass inside one 500-character window: regex matches, capped
at 5 (`potential_clients[:5]`). -/
def clientsInWindow (ctx : List Char) : List String :=
  (findallClients ctx).take 5

/-- Technology pass inside one 300-character window: the fixed
vocabulary terms occurring in the window, uncapped. -/
def techsInWindow (ctx : List Char) : List String :=
  techTerms.filter (fun t => containsL t.data ctx)

/-- Project pass inside one 400-character window: split on `'.'`, keep
sentences containing a project keyword, strip them, cap at 3
(`project_sentences[:3]`). -/
def projectsInWindow (ctx : List Char) : List String :=
  (((ctx.splitOn '.').filter
      (fun s => projectKeywords.any (fun w => containsL w.data (s.map Char.toLower)))).map
        (fun s => String.mk (trimL s))).take 3

/-! ## analyze_company (lines 209-351) -/

structure CompanyProfile where
  company_name : String
  description : String
  about_url : Option String
  main_url : String
  clients : List String
  technologies : List String
  projects : List String

/-- Result of `analyze_company`: the full dictionary, or the
single-key `{"error": msg}` dictionary.  The `analysis_summary` string
(lines 308-332) is rendered from the profile fields via Python `set`
iteration, whose order is interpreter-dependent; no claim concerns its
text and it is not modelled. -/
inductive AnalyzeResult where
  | profile (p : CompanyProfile)
  | error (msg : String)

/-- The soft-failure check on the title (line 221). -/
def errorTokensPresent (title_text : String) : Bool :=
  containsStr "403" title_text || containsStr "forbidden" (pyLower title_text) ||
    containsStr "error" (pyLower title_text)

/-- The `has_meaningful_info` check (lines 296-300); the first conjunct
is Python truthiness of the name string. -/
def hasMeaningfulInfo (company_name : String) : Bool :=
  !company_name.data.isEmpty &&
    !(["403 forbidden", "404 not found", "error", "access denied"].any
        (fun x => decide (x = pyLower company_name))) &&
    decide (3 < company_name.length)

/-- The `except Exception` classifier of analyze_company
(lines 344-351), on `str(e)` of the raised exception. -/
def analyze_company_exn (e : String) : AnalyzeResult :=
  if containsStr "403" e || containsStr "forbidden" (pyLower e) then
    .error "Could not access company website (403 Forbidden). Try using the main company URL instead of specific pages like /careers or /join-us."
  else if containsStr "404" e then
    .error "Company website not found (404). Please check the URL and try again."
  else
    .error ("Could not analyze company: " ++ e)

/-- The profile dictionary built from a fetched page whose title passed
the error-token check (lines 226-343). -/
def buildProfile (url : String) (page : Page) : CompanyProfile :=
  let title_text := page.title.getD "Unknown Company"
  let description :=
    ((page.metas.find? (fun m => m.name = some "description")).map
      (fun m => m.content.getD "")).getD ""
  let about_url :=
    page.anchors.find? (fun href =>
      containsStr "about" (pyLower href) || containsStr "over" (pyLower href) ||
        containsStr "company" (pyLower href))
  let page_text := pyLowerL page.text.data
  let clients := keywordWindows page_text clientIndicators 500 clientsInWindow
  let technologies := keywordWindows page_text techIndicators 300 techsInWindow
  let projects := keywordWindows page_text projectIndicators 400 projectsInWindow
  let company_name :=
    if containsStr "|" title_text then pyStrip ((pySplitChar '|' title_text).headD "")
    else title_text
  let clean_description := if !description.data.isEmpty then description else "No description found"
  let meaningful := hasMeaningfulInfo company_name
  let company_name := if meaningful then company_name else "the company"
  let clean_description := if meaningful then clean_description else "a technology company"
  ⟨company_name, clean_description, about_url, url, clients, technologies, projects⟩

/-- The `try` body on a successfully fetched and parsed page
(lines 215-343). -/
def analyze_company_ok (url : String) (page : Page) : AnalyzeResult :=
  let title_text := page.title.getD "Unknown Company"
  if errorTokensPresent title_text then
    .error ("Could not access company website: " ++ title_text ++
      ". Try using the main company URL instead of specific pages.")
  else
    .profile (buildProfile url page)

/-- `analyze_company(url)`.  The fetch/parse collaborator outcome is the
second argument: `.error e` is an exception (network failure, timeout,
or anything else raised inside the `try`) carrying its `str(e)` message;
`.ok page` is a successfully fetched and parsed page. -/
def analyze_company (url : String) (oc : Except String Page) : AnalyzeResult :=
  match oc with
  | .error e => analyze_company_exn e
  | .ok page => analyze_company_ok url page

/-- Total projection used to state facts about the lists of a result. -/
def AnalyzeResult.projectsD : AnalyzeResult → List String
  | .profile p => p.projects
  | .error _ => []

/-- Total projection for the technologies list of a result. -/
def AnalyzeResult.technologiesD : AnalyzeResult → List String
  | .profile p => p.technologies
  | .error _ => []

/-! ## Python JSON values and dict operations (analyze_cv, lines 149-207)

`json.loads` is the Python standard library parser; its output is
modelled by `PyJson`.  A model response is either a raised exception or
a content string together with that string's parse result (`none` when
`json.loads` raises `JSONDecodeError`). -/

inductive PyJson where
  | null
  | bool (b : Bool)
  | num (n : Int)
  | str (s : String)
  | arr (xs : List PyJson)
  | obj (fields : List (String × PyJson))
deriving BEq

/-- `dict.get(k)` on the fields of a parsed JSON object (`json.loads`
produces distinct keys, duplicates in the source text having been
resolved at parse time, so first-match lookup is dict lookup). -/
def pyGetOpt (fs : List (String × PyJson)) (k : String) : Option PyJson :=
  (fs.find? (fun kv => decide (kv.1 = k))).map (fun kv => kv.2)

/-- `dict.get(k, dflt)`. -/
def pyGet (fs : List (String × PyJson)) (k : String) (dflt : PyJson) : PyJson :=
  (pyGetOpt fs k).getD dflt

/-! ### Python str() / repr() of parsed JSON values

Needed because the f-string at lines 158-177 interpolates arbitrary
parsed values.  `repr` quoting of strings is modelled without escape
sequences (no claim concerns the rendered text of exotic strings). -/

mutual

def pyRepr : PyJson → String
  | .null => "None"
  | .bool true => "True"
  | .bool false => "False"
  | .num n => toString n
  | .str s => "'" ++ s ++ "'"
  | .arr xs => "[" ++ String.intercalate ", " (pyReprList xs) ++ "]"
  | .obj fs => "\x7b" ++ String.intercalate ", " (pyReprFields fs) ++ "\x7d"

def pyReprList : List PyJson → List String
  | [] => []
  | x :: xs => pyRepr x :: pyReprList xs

def pyReprFields : List (String × PyJson) → List String
  | [] => []
  | kv :: fs => ("'" ++ kv.1 ++ "': " ++ pyRepr kv.2) :: pyReprFields fs

end

/-- Python `str()` of a parsed JSON value (`str` of a string is the
string itself; every other value prints as its repr). -/
def pyStr : PyJson → String
  | .str s => s
  | v => pyRepr v

/-! ### The f-string rendering of the structured CV (lines 158-177)

The comprehensions `[... for edu in cv_data.get('education', [])]` and
the joins `', '.join(cv_data.get('technical_skills', []))` raise for
ill-typed field values; such an exception is caught by the outer
`except Exception` of analyze_cv.  `Except Unit` models "raises". -/

/-- `for x in v` with `x.get(...)` on each element: succeeds iff `v` is
a list of dicts (yielding their field lists), an empty string, or an
empty dict (iterating those yields no elements; a non-empty string
yields characters and a non-empty dict yields string keys, and `.get`
on a `str` raises `AttributeError`); any non-iterable raises
`TypeError`. -/
def bulletItems : PyJson → Except Unit (List (List (String × PyJson)))
  | .arr xs => go xs
  | .str s => if s.data.isEmpty then .ok [] else .error ()
  | .obj fs => if fs.isEmpty then .ok [] else .error ()
  | _ => .error ()
where
  go : List PyJson → Except Unit (List (List (String × PyJson)))
    | [] => .ok []
    | .obj fs :: rest => (go rest).map (fun r => fs :: r)
    | _ :: _ => .error ()

/-- `', '.join(v)`: succeeds iff `v` is iterable with string elements
(a list of strings; a string, whose elements are its characters; a
dict, whose elements are its keys); otherwise raises `TypeError`. -/
def joinStrs : PyJson → Except Unit String
  | .arr xs => (allStr xs).map (String.intercalate ", ")
  | .str s => .ok (String.intercalate ", " (s.data.map (fun c => String.mk [c])))
  | .obj fs => .ok (String.intercalate ", " (fs.map (fun kv => kv.1)))
  | _ => .error ()
where
  allStr : List PyJson → Except Unit (List String)
    | [] => .ok []
    | .str s :: rest => (allStr rest).map (fun r => s :: r)
    | _ :: _ => .error ()

/-- One education bullet: `f"- {degree} at {institution} ({year})"`. -/
def eduLine (fs : List (String × PyJson)) : String :=
  "- " ++ pyStr (pyGet fs "degree" (.str "")) ++ " at " ++
    pyStr (pyGet fs "institution" (.str "")) ++ " (" ++
    pyStr (pyGet fs "year" (.str "")) ++ ")"

/-- One work-experience bullet: `f"- {position} at {company} ({duration})"`. -/
def expLine (fs : List (String × PyJson)) : String :=
  "- " ++ pyStr (pyGet fs "position" (.str "")) ++ " at " ++
    pyStr (pyGet fs "company" (.str "")) ++ " (" ++
    pyStr (pyGet fs "duration" (.str "")) ++ ")"

/-- Project bullets: each needs an inner `', '.join` of its
technologies. -/
def projLinesOf : List (List (String × PyJson)) → Except Unit (List String)
  | [] => .ok []
  | fs :: rest => do
    let tech ← joinStrs (pyGet fs "technologies" (.arr []))
    let r ← projLinesOf rest
    .ok (("- " ++ pyStr (pyGet fs "name" (.str "")) ++ ": " ++
      pyStr (pyGet fs "description" (.str "")) ++ " (Tech: " ++ tech ++ ")") :: r)

/-- The `analysis_text` f-string (lines 158-177): `.ok` with the
rendered block, `.error` when any interpolated part raises. -/
def renderAnalysis (fs : List (String × PyJson)) : Except Unit String := do
  let name := pyStr (pyGet fs "name" (.str "Not found"))
  let email := pyStr (pyGet fs "email" (.str "Not found"))
  let phone := pyStr (pyGet fs "phone" (.str "Not found"))
  let location := pyStr (pyGet fs "location" (.str "Not found"))
  let edus ← bulletItems (pyGet fs "education" (.arr []))
  let exps ← bulletItems (pyGet fs "work_experience" (.arr []))
  let skills ← joinStrs (pyGet fs "technical_skills" (.arr []))
  let projs ← bulletItems (pyGet fs "projects" (.arr []))
  let projLines ← projLinesOf projs
  let langs ← joinStrs (pyGet fs "languages" (.arr []))
  let softs ← joinStrs (pyGet fs "soft_skills" (.arr []))
  .ok ("\nName: " ++ name ++ "\nEmail: " ++ email ++ "\nPhone: " ++ phone ++
    "\nLocation: " ++ location ++ "\n\nEducation:\n" ++
    String.intercalate "\n" (edus.map eduLine) ++ "\n\nWork Experience:\n" ++
    String.intercalate "\n" (exps.map expLine) ++ "\n\nTechnical Skills: " ++
    skills ++ "\n\nProjects:\n" ++ String.intercalate "\n" projLines ++
    "\n\nLanguages: " ++ langs ++ "\nSoft Skills: " ++ softs ++ "\n")

/-- `.ok`-ness of a render outcome. -/
def renderOk (e : Except Unit String) : Bool :=
  match e with
  | .ok _ => true
  | .error _ => false

/-! ### analyze_cv (lines 78-207) -/

/-- Outcome of the model call for a CV analysis: `.exn` when
`ollama.chat` (or the response indexing) raises, `.content raw parsed`
when it yields the response text `raw`, with `parsed` the result of
`json.loads raw` (`none` when the parser raises `JSONDecodeError`). -/
inductive CvModelOutcome where
  | exn (msg : String)
  | content (raw : String) (parsed : Option PyJson)

/-- The dictionary returned by `analyze_cv`.  `extracted_name` is a
`PyJson` because `cv_data.get('name', '[Your Name]')` can yield any
parsed value, including `None` for a JSON `null`. -/
structure CvData where
  raw_text : String
  analysis : String
  extracted_name : PyJson
  structured_data : Option PyJson

/-- `analyze_cv(cv_text)`.  The outer `except Exception` makes every
path return a dictionary (raised `AttributeError`s from `.get` on a
non-dict parse and raised errors inside the f-string land there); the
`except json.JSONDecodeError` branch is the `parsed = none` fallback. -/
def analyze_cv (cv_text : String) (oc : CvModelOutcome) : CvData :=
  match oc with
  | .exn _ => ⟨cv_text, "Error analyzing CV", .str "[Your Name]", none⟩
  | .content raw parsed =>
    match parsed with
    | some (.obj fs) =>
      match renderAnalysis fs with
      | .ok txt => ⟨cv_text, txt, pyGet fs "name" (.str "[Your Name]"), some (.obj fs)⟩
      | .error _ => ⟨cv_text, "Error analyzing CV", .str "[Your Name]", none⟩
    | some _ => ⟨cv_text, "Error analyzing CV", .str "[Your Name]", none⟩
    | none =>
      if pyStartsWith raw "NAME:" then
        ⟨cv_text, String.intercalate "\n" (pySplitChar '\n' raw).tail,
          .str (pyStrip (pyReplace ((pySplitChar '\n' raw).headD "") "NAME:" "")), none⟩
      else ⟨cv_text, raw, .str "[Your Name]", none⟩

/-! ## Cover-letter section splitter and generators (lines 353-496) -/

structure Versions where
  short : String
  medium : String
deriving DecidableEq, Repr

/-- The `current_version` pointer of the splitter. -/
inductive LetterSection where
  | short
  | medium

/-- `"short" in line.lower() or "1." in line` (line 426). -/
def isShortMarker (line : String) : Bool :=
  containsStr "short" (pyLower line) || containsStr "1." line

/-- `"medium" in line.lower() or "2." in line` (line 428). -/
def isMediumMarker (line : String) : Bool :=
  containsStr "medium" (pyLower line) || containsStr "2." line

/-- The line scan of the splitter (lines 421-431): markers switch the
pointer and are not appended; every other line is appended, plus a
newline, to the buffer of the current pointer. -/
def splitLines : List String → LetterSection → Versions → Versions
  | [], _, acc => acc
  | line :: rest, cur, acc =>
    if isShortMarker line then splitLines rest .short acc
    else if isMediumMarker line then splitLines rest .medium acc
    else
      let acc' :=
        match cur with
        | .short => { acc with short := acc.short ++ line ++ "\n" }
        | .medium => { acc with medium := acc.medium ++ line ++ "\n" }
      splitLines rest cur acc'

/-- Splitting the whole model output: `content.split('\n')`, pointer
initialized to `short`, both buffers empty. -/
def splitVersions (content : String) : Versions :=
  splitLines (pySplitChar '\n' content) .short ⟨"", ""⟩

/-- What a run of non-marker lines contributes to one buffer: each
line followed by a newline. -/
def joinNL : List String → String
  | [] => ""
  | l :: ls => l ++ "\n" ++ joinNL ls

/-- Result of `generate_cover_letter`: the versions dictionary or the
`{"error": msg}` dictionary from the `except` branch. -/
inductive CoverResult where
  | versions (v : Versions)
  | error (msg : String)

/-- `generate_cover_letter` (lines 353-438), parametrized by the
outcome of the `ollama.chat` call (the prompt construction cannot
raise and its text influences only the external model). -/
def generate_cover_letter (modelOutcome : Except String String) : CoverResult :=
  match modelOutcome with
  | .ok content => .versions (splitVersions content)
  | .error e => .error ("Could not generate cover letter: " ++ e)

/-- `generate_linkedin_message` (lines 440-496): the model output
verbatim, or an error *string* (not an error status) when the call
raises. -/
def generate_linkedin_message (modelOutcome : Except String String) : String :=
  match modelOutcome with
  | .ok content => content
  | .error e => "Error generating LinkedIn message: " ++ e

/-! ## save_application directory name (lines 498-533) -/

/-- Collapse maximal runs of `[-\s]` to a single underscore
(`re.sub(r'[-\s]+', '_', ...)`). -/
def collapseRunsAux : List Char → Bool → List Char
  | [], _ => []
  | c :: rest, inRun =>
    if c = '-' || isSpaceCls c then
      if inRun then collapseRunsAux rest true else '_' :: collapseRunsAux rest true
    else c :: collapseRunsAux rest false

/-- Collapse maximal runs of `[-\s]` to a single underscore: each run's
first character emits `_`, the rest of the run emits nothing. -/
def collapseRuns (l : List Char) : List Char := collapseRunsAux l false

/-- The company-name sanitizer: drop characters outside `[\w\s-]`,
collapse hyphen/whitespace runs to `_`, strip leading and trailing
underscores. -/
def sanitizeCompanyName (s : String) : String :=
  let kept := s.data.filter (fun c => wordChar c || isSpaceCls c || c = '-')
  let collapsed := collapseRuns kept
  String.mk ((collapsed.dropWhile (fun c => c = '_')).reverse.dropWhile
    (fun c => c = '_')).reverse

/-- The directory path written by `save_application`
(`output / f"{timestamp}_{clean_company_name}"`); the timestamp is
wall-clock state, passed in. -/
def save_application_path (company_name : String) (timestamp : String) : String :=
  "output/" ++ timestamp ++ "_" ++ sanitizeCompanyName company_name

/-! ## The HTTP request boundary (upload_cv and generate_application)

A raised Python exception is either a FastAPI `HTTPException` (whose
`str()` is `f"{status_code}: {detail}"`) or any other exception carrying
its message.  Both handlers wrap their whole body in
`try ... except Exception as e: raise HTTPException(500, str(e))`;
since `HTTPException` subclasses `Exception`, an `HTTPException` raised
inside the body is caught there too and re-raised with status 500. -/

inductive PyExn where
  | http (status : Nat) (detail : String)
  | other (msg : String)

/-- Python `str(e)`. -/
def PyExn.str : PyExn → String
  | .http s d => toString s ++ ": " ++ d
  | .other m => m

/-- The `HTTPException` ultimately sent to the client. -/
structure HTTPError where
  status : Nat
  detail : String
deriving DecidableEq, Repr

/-- The two module-level globals `cv_data` and `cv_file_path`
(lines 41-42). -/
structure CVSlot where
  cv_data : Option CvData
  cv_file_path : Option String

/-- The success body of `POST /upload-cv`. -/
structure UploadOk where
  status : String
  message : String
  filename : String

/-- `upload_cv` (lines 543-581).  Collaborator outcomes: `pdfText` and
`docxText` are the returns of `extract_text_from_pdf` / `..._docx`
(those helpers catch their own exceptions and return `""`, lines 54-76,
so they always yield a string); `txtDecode` is `content.decode('utf-8')`
(which raises `UnicodeDecodeError` on invalid UTF-8); `modelOutcome`
feeds `analyze_cv`.  Returns the response (or the error sent to the
client) together with the CV slot after the request. -/
def upload_cv_body (filename : String) (pdfText docxText : String)
    (txtDecode : Except String String) (modelOutcome : CvModelOutcome) :
    Except PyExn (UploadOk × CVSlot) := do
  let cv_text ←
    if pyEndsWith (pyLower filename) ".pdf" then pure pdfText
    else if pyEndsWith (pyLower filename) ".docx" then pure docxText
    else if pyEndsWith (pyLower filename) ".txt" then
      match txtDecode with
      | .ok t => pure t
      | .error m => throw (.other m)
    else throw (.http 400 "Unsupported file type. Use PDF, DOCX, or TXT.")
  if trimL cv_text.data = [] then
    throw (.http 400 "Could not extract text from file.")
  else
    let d := analyze_cv cv_text modelOutcome
    pure (⟨"success", "CV '" ++ filename ++ "' uploaded and analyzed successfully",
      filename⟩, ⟨some d, some filename⟩)

/-- The whole handler: the `try` body above, wrapped by
`except Exception as e: raise HTTPException(500, str(e))`.  The globals
are only assigned on the success path, so a caught exception leaves the
slot as it was. -/
def upload_cv (st : CVSlot) (filename : String) (pdfText docxText : String)
    (txtDecode : Except String String) (modelOutcome : CvModelOutcome) :
    Except HTTPError UploadOk × CVSlot :=
  match upload_cv_body filename pdfText docxText txtDecode modelOutcome with
  | .ok (resp, st') => (.ok resp, st')
  | .error e => (.error ⟨500, e.str⟩, st)

/-- `POST /generate` URL normalization (lines 608-613; both branches of
the `www.` test prefix `https://`). -/
def normalize_url (u : String) : String :=
  if pyStartsWith u "http://" || pyStartsWith u "https://" then u
  else if pyStartsWith u "www." then "https://" ++ u
  else "https://" ++ u

/-- Python truthiness of a parsed JSON value (for
`cv_data.get('extracted_name') and ...`). -/
def pyTruthy : PyJson → Bool
  | .null => false
  | .bool b => b
  | .num n => decide (n ≠ 0)
  | .str s => !s.data.isEmpty
  | .arr xs => !xs.isEmpty
  | .obj fs => !fs.isEmpty

/-- The success body of `POST /generate`.  `company_analysis` (the
summary text) and `processing_time` (wall clock) are not modelled; see
`AnalyzeResult`. -/
structure GenOk where
  status : String
  company : String
  output_path : String
  cover_letters : Versions
  linkedin_message : String
  cv_used : Bool

/-- The applicant-name selection of the handler (lines 626-631). -/
def applicantNameOf (st : CVSlot) : String :=
  match st.cv_data with
  | some d =>
    if pyTruthy d.extracted_name && d.extracted_name != .str "[Your Name]" then
      pyStr d.extracted_name
    else "[Your Name]"
  | none => "[Your Name]"

/-- `generate_application` (lines 601-674), parametrized by the
fetch/parse outcome and the two model-call outcomes; `ts` is the
timestamp used by `save_application`.  The trailing
`except Exception as e: raise HTTPException(500, str(e))` catches the
handler's own `HTTPException`s. -/
def generate_application_body (st : CVSlot) (fetchOutcome : Except String Page)
    (coverOutcome linkedinOutcome : Except String String) (url ts : String) :
    Except PyExn GenOk := do
  let company_url := normalize_url url
  match analyze_company company_url fetchOutcome with
  | .error m => throw (.http 400 m)
  | .profile p =>
    let _applicant_name := applicantNameOf st
    match generate_cover_letter coverOutcome with
    | .error m => throw (.http 500 m)
    | .versions v =>
      let linkedin := generate_linkedin_message linkedinOutcome
      let path := save_application_path p.company_name ts
      pure ⟨"success", p.company_name, path, v, linkedin, st.cv_data.isSome⟩

/-- The whole handler: the `try` body above (the URL normalization at
lines 608-613 happens before the `try`, but cannot raise), wrapped by
`except Exception as e: raise HTTPException(500, str(e))`. -/
def generate_application (st : CVSlot) (fetchOutcome : Except String Page)
    (coverOutcome linkedinOutcome : Except String String) (url ts : String) :
    Except HTTPError GenOk :=
  match generate_application_body st fetchOutcome coverOutcome linkedinOutcome url ts with
  | .ok r => .ok r
  | .error e => .error ⟨500, e.str⟩

/-! ## Helper lemmas -/

theorem str_append_empty (s : String) : s ++ "" = s := by
  rcases s with ⟨l⟩
  show String.mk (l ++ []) = String.mk l
  rw [List.append_nil]

theorem str_append_assoc (a b c : String) : a ++ b ++ c = a ++ (b ++ c) := by
  rcases a with ⟨la⟩; rcases b with ⟨lb⟩; rcases c with ⟨lc⟩
  show String.mk (la ++ lb ++ lc) = String.mk (la ++ (lb ++ lc))
  rw [List.append_assoc]

/-- Each indicator of the loop contributes what `inner` yields on one
window (or nothing), so the accumulated list has at most
`cap * (number of indicators)` entries when every window contributes at
most `cap`. -/
theorem keywordWindows_length_le (text : List Char) (inds : List String) (w cap : Nat)
    (inner : List Char → List String) (h : ∀ ctx, (inner ctx).length ≤ cap) :
    (keywordWindows text inds w inner).length ≤ inds.length * cap := by
  induction inds with
  | nil => simp [keywordWindows]
  | cons i rest ih =>
    have h1 : (match firstOccur i.data text with
        | some j => inner ((text.drop j).take w)
        | none => ([] : List String)).length ≤ cap := by
      cases firstOccur i.data text with
      | none => simp
      | some j => exact h _
    calc (keywordWindows text (i :: rest) w inner).length
        = (match firstOccur i.data text with
            | some j => inner ((text.drop j).take w)
            | none => ([] : List String)).length +
          (keywordWindows text rest w inner).length := by
          simp [keywordWindows]
      _ ≤ cap + rest.length * cap := Nat.add_le_add h1 ih
      _ = (i :: rest).length * cap := by simp [List.length_cons]; ring

/-- If every window's contribution is duplicate-free, each value occurs
in the accumulated list at most once per indicator. -/
theorem keywordWindows_count_le (text : List Char) (inds : List String) (w : Nat)
    (inner : List Char → List String) (h : ∀ ctx t, ((inner ctx).count t) ≤ 1) :
    ∀ t, (keywordWindows text inds w inner).count t ≤ inds.length := by
  induction inds with
  | nil => simp [keywordWindows]
  | cons i rest ih =>
    intro t
    have h1 : (match firstOccur i.data text with
        | some j => inner ((text.drop j).take w)
        | none => ([] : List String)).count t ≤ 1 := by
      cases firstOccur i.data text with
      | none => simp
      | some j => exact h _ t
    calc (keywordWindows text (i :: rest) w inner).count t
        = (match firstOccur i.data text with
            | some j => inner ((text.drop j).take w)
            | none => ([] : List String)).count t +
          (keywordWindows text rest w inner).count t := by
          simp [keywordWindows, List.count_append]
      _ ≤ 1 + rest.length := Nat.add_le_add h1 (ih t)
      _ = (i :: rest).length := by simp [List.length_cons]; omega

theorem clientsInWindow_length_le (ctx : List Char) : (clientsInWindow ctx).length ≤ 5 :=
  List.length_take_le 5 _

theorem projectsInWindow_length_le (ctx : List Char) : (projectsInWindow ctx).length ≤ 3 :=
  List.length_take_le 3 _

theorem techTerms_nodup : techTerms.Nodup := by decide

theorem techsInWindow_count_le_one (ctx : List Char) (t : String) :
    (techsInWindow ctx).count t ≤ 1 := by
  have hn : (techsInWindow ctx).Nodup := techTerms_nodup.filter _
  exact List.nodup_iff_count_le_one.mp hn t

/-- Inversion for a successful analysis: the profile's three lists are
the keyword-window extractions over the lowercased page text. -/
theorem analyze_company_profile_lists (url : String) (page : Page) (p : CompanyProfile)
    (h : analyze_company url (.ok page) = .profile p) :
    p.clients = keywordWindows (pyLowerL page.text.data) clientIndicators 500 clientsInWindow ∧
    p.technologies = keywordWindows (pyLowerL page.text.data) techIndicators 300 techsInWindow ∧
    p.projects = keywordWindows (pyLowerL page.text.data) projectIndicators 400 projectsInWindow := by
  have h' : analyze_company_ok url page = .profile p := h
  unfold analyze_company_ok at h'
  dsimp only at h'
  split at h'
  · exact AnalyzeResult.noConfusion h'
  · have hp : buildProfile url page = p := by
      injection h'
    subst hp
    exact ⟨rfl, rfl, rfl⟩

/-! ## Claim theorems -/

/-- C1 (code bug): the two rejection paths of `POST /upload-cv` are
written as `HTTPException(status_code=400, ...)`, but both raises sit
inside the handler's `try`, and FastAPI's `HTTPException` subclasses
`Exception`, so the trailing `except Exception as e: raise
HTTPException(status_code=500, detail=str(e))` intercepts them: the
client receives status 500 (with the intended 400 detail embedded in
`str(e)`), not the 400 the code and spec intend.  Evaluated here at an
unsupported extension (`cv.xyz`) and at a `.txt` upload whose extracted
text is whitespace-only. -/
theorem upload_cv_rejections_return_500 :
    (∀ st pdfT docxT txtD oc,
      upload_cv st "cv.xyz" pdfT docxT txtD oc =
        (.error ⟨500, "400: Unsupported file type. Use PDF, DOCX, or TXT."⟩, st)) ∧
    (∀ st pdfT docxT oc,
      upload_cv st "cv.txt" pdfT docxT (.ok "  \n ") oc =
        (.error ⟨500, "400: Could not extract text from file."⟩, st)) :=
  ⟨fun _ _ _ _ _ => rfl, fun _ _ _ _ => rfl⟩

/-- C2 (code bug): when company analysis fails, `POST /generate` raises
`HTTPException(status_code=400, detail=company_info["error"])` inside
its own `try`; the trailing `except Exception` catches it and re-raises
with status 500, so the client sees 500 (detail `"400: ..."`), not 400.
Generation failures do reach the client as 500 (their detail prefixed
`"500: "` by the same re-raise).  Evaluated at a fetch raising a
403-classified exception and at a failing cover-letter model call. -/
theorem generate_analysis_failure_returns_500 :
    (∀ st cover linkedin ts,
      generate_application st (.error "403 Client Error: Forbidden for url") cover linkedin
          "acme.com" ts =
        .error ⟨500, "400: Could not access company website (403 Forbidden). Try using the main company URL instead of specific pages like /careers or /join-us."⟩) ∧
    (∀ st linkedin ts,
      generate_application st (.ok ⟨some "Acme Corp", [], [], ""⟩) (.error "model down")
          linkedin "acme.com" ts =
        .error ⟨500, "500: Could not generate cover letter: model down"⟩) :=
  ⟨fun _ _ _ _ => rfl, fun _ _ _ => rfl⟩

/-- C9 (confirmed): the globals `cv_data` / `cv_file_path` are assigned
only on the success path of `upload_cv`, after every raise point, so
any failed upload leaves the CV slot exactly as it was. -/
theorem upload_cv_failure_preserves_slot (st : CVSlot) (filename pdfT docxT : String)
    (txtD : Except String String) (oc : CvModelOutcome) (err : HTTPError)
    (h : (upload_cv st filename pdfT docxT txtD oc).1 = .error err) :
    (upload_cv st filename pdfT docxT txtD oc).2 = st := by
  unfold upload_cv at h ⊢
  cases hb : upload_cv_body filename pdfT docxT txtD oc with
  | ok pr =>
    obtain ⟨resp, st'⟩ := pr
    rw [hb] at h
    exact Except.noConfusion h
  | error e => rfl

/-- Witness for C9 at the spec's own example: an upload with extension
`.xyz` fails and the slot (here the empty slot) is unchanged. -/
theorem upload_cv_failure_preserves_slot_witness :
    (upload_cv ⟨none, none⟩ "cv.xyz" "" "" (.ok "") (.exn "x")).1 =
      .error ⟨500, "400: Unsupported file type. Use PDF, DOCX, or TXT."⟩ ∧
    (upload_cv ⟨none, none⟩ "cv.xyz" "" "" (.ok "") (.exn "x")).2 = ⟨none, none⟩ :=
  ⟨rfl, upload_cv_failure_preserves_slot ⟨none, none⟩ "cv.xyz" "" "" (.ok "") (.exn "x")
    ⟨500, "400: Unsupported file type. Use PDF, DOCX, or TXT."⟩ rfl⟩

/-- C10 (confirmed): the three formats fail differently.  A `.txt`
upload whose bytes are not valid UTF-8 raises `UnicodeDecodeError` out
of the plain-text branch and is caught by the generic handler (500 with
the decoder's message, verbatim).  A `.pdf` or `.docx` whose extractor
fails degrades to `""` (the extractors catch their own exceptions,
lines 54-76) and takes the "Could not extract text from file."
validation path (whose 400 becomes a 500 with prefixed detail, see C1).
-/
theorem upload_cv_format_failure_modes :
    (∀ st pdfT docxT oc m,
      upload_cv st "cv.txt" pdfT docxT (.error m) oc = (.error ⟨500, m⟩, st)) ∧
    (∀ st docxT txtD oc,
      upload_cv st "cv.pdf" "" docxT txtD oc =
        (.error ⟨500, "400: Could not extract text from file."⟩, st)) ∧
    (∀ st pdfT txtD oc,
      upload_cv st "cv.docx" pdfT "" txtD oc =
        (.error ⟨500, "400: Could not extract text from file."⟩, st)) :=
  ⟨fun _ _ _ _ _ => rfl, fun _ _ _ _ => rfl, fun _ _ _ _ => rfl⟩

/-- C3 (confirmed): `analyze_company` wraps its whole body in
`try ... except Exception`, so for every URL and every collaborator
behaviour it returns a dictionary — a profile or an error — and a
raised exception is classified by its message: 403-like (contains
"403", or "forbidden" case-insensitively) to the access-denied error,
404-like to the not-found error, anything else to the generic error
carrying the exception message. -/
theorem analyze_company_total_and_classifies :
    (∀ url oc, (∃ p, analyze_company url oc = .profile p) ∨
      (∃ m, analyze_company url oc = .error m)) ∧
    (∀ url e, analyze_company url (.error e) =
      (if containsStr "403" e || containsStr "forbidden" (pyLower e) then
        .error "Could not access company website (403 Forbidden). Try using the main company URL instead of specific pages like /careers or /join-us."
      else if containsStr "404" e then
        .error "Company website not found (404). Please check the URL and try again."
      else .error ("Could not analyze company: " ++ e))) := by
  constructor
  · intro url oc
    cases oc with
    | error e =>
      refine Or.inr ?_
      show ∃ m, analyze_company_exn e = .error m
      unfold analyze_company_exn
      split
      · exact ⟨_, rfl⟩
      · split
        · exact ⟨_, rfl⟩
        · exact ⟨_, rfl⟩
    | ok page =>
      show (∃ p, analyze_company_ok url page = .profile p) ∨
        (∃ m, analyze_company_ok url page = .error m)
      unfold analyze_company_ok
      dsimp only
      split
      · exact Or.inr ⟨_, rfl⟩
      · exact Or.inl ⟨_, rfl⟩
  · intro url e
    rfl

/-- C7 (confirmed): a fetched page whose title contains "403", or
"forbidden" / "error" case-insensitively, is treated as a soft failure:
`analyze_company` returns the error dictionary with the remediation
hint ("Try using the main company URL instead of specific pages."),
never a profile.  The HTTP status plays no role: `requests.get` is
called without `raise_for_status`, so the parsed page is all the body
ever sees. -/
theorem analyze_company_error_title_soft_failure (url : String) (page : Page)
    (h : containsStr "403" (page.title.getD "Unknown Company") = true ∨
      containsStr "forbidden" (pyLower (page.title.getD "Unknown Company")) = true ∨
      containsStr "error" (pyLower (page.title.getD "Unknown Company")) = true) :
    analyze_company url (.ok page) =
      .error ("Could not access company website: " ++ page.title.getD "Unknown Company" ++
        ". Try using the main company URL instead of specific pages.") := by
  have hb : errorTokensPresent (page.title.getD "Unknown Company") = true := by
    unfold errorTokensPresent
    rcases h with h | h | h <;> simp [h]
  show analyze_company_ok url page = _
  unfold analyze_company_ok
  dsimp only
  rw [hb]
  simp

/-- Witness for C7: a page titled "403 Forbidden". -/
theorem analyze_company_error_title_soft_failure_witness :
    containsStr "403" ((Page.mk (some "403 Forbidden") [] [] "").title.getD "Unknown Company") =
      true ∧
    analyze_company "https://ex.example" (.ok ⟨some "403 Forbidden", [], [], ""⟩) =
      .error ("Could not access company website: " ++ "403 Forbidden" ++
        ". Try using the main company URL instead of specific pages.") :=
  ⟨by decide, analyze_company_error_title_soft_failure "https://ex.example"
    ⟨some "403 Forbidden", [], [], ""⟩ (Or.inl (by decide))⟩

/-- A page on which two project indicators ("projects", "portfolio")
both occur, each window contributing its own capped batch of
sentences. -/
def projectsCapPage : Page :=
  ⟨some "Acme", [], [],
   "projects x. one app here. two app here. three app here. four app here. portfolio y. five app here. six app here."⟩

/-- C4 counterexample: the `[:3]` cap is applied per indicator and the
per-indicator batches are `extend`ed, so the projects list of a profile
can hold 5 entries — the claimed global cap of 3 fails (the extraction
windows are likewise sliced at the first occurrence of *each* phrase,
not of the set as a whole). -/
theorem analyze_company_projects_exceed_cap :
    (analyze_company "https://a.example" (.ok projectsCapPage)).projectsD.length = 5 ∧
    ¬(analyze_company "https://a.example" (.ok projectsCapPage)).projectsD.length ≤ 3 := by
  constructor
  · rfl
  · decide

/-- C4 (corrected): the caps hold per indicator, not globally: each of
the 6 client indicators contributes at most 5 regex matches
(`potential_clients[:5]`) and each of the 5 project indicators at most
3 sentences (`project_sentences[:3]`), so a returned profile's clients
list has at most 30 entries and its projects list at most 15. -/
theorem analyze_company_list_caps (url : String) (page : Page) (p : CompanyProfile)
    (h : analyze_company url (.ok page) = .profile p) :
    p.clients.length ≤ 30 ∧ p.projects.length ≤ 15 := by
  obtain ⟨hc, -, hp⟩ := analyze_company_profile_lists url page p h
  constructor
  · rw [hc]
    exact keywordWindows_length_le _ _ _ 5 _ clientsInWindow_length_le
  · rw [hp]
    exact keywordWindows_length_le _ _ _ 3 _ projectsInWindow_length_le

/-- Witness for C4's amended claim at a successfully analyzed page. -/
theorem analyze_company_list_caps_witness :
    analyze_company "https://a.example" (.ok ⟨some "Acme Corp", [], [], ""⟩) =
      .profile ⟨"Acme Corp", "No description found", none, "https://a.example", [], [], []⟩ ∧
    (CompanyProfile.mk "Acme Corp" "No description found" none "https://a.example"
      [] [] []).clients.length ≤ 30 ∧
    (CompanyProfile.mk "Acme Corp" "No description found" none "https://a.example"
      [] [] []).projects.length ≤ 15 :=
  ⟨rfl, analyze_company_list_caps "https://a.example" ⟨some "Acme Corp", [], [], ""⟩ _ rfl⟩

/-- A page on which two technology indicators ("technologies",
"tech stack") both occur with "react" in both windows. -/
def techDupPage : Page :=
  ⟨some "Acme", [], [], "technologies react and tech stack react"⟩

/-- C5 counterexample: the returned `technologies` field is the raw
`extend`ed list, deduplicated only in the rendered summary
(`', '.join(set(...))`), so the field itself can contain duplicates. -/
theorem analyze_company_technologies_duplicate :
    (analyze_company "https://b.example" (.ok techDupPage)).technologiesD =
      ["react", "react"] ∧
    ¬(analyze_company "https://b.example" (.ok techDupPage)).technologiesD.Nodup := by
  constructor
  · rfl
  · decide

/-- C5 (corrected): within one indicator window the matched vocabulary
terms are distinct (a filter over the fixed, duplicate-free `tech_terms`
list), so each term occurs in the returned technologies list at most
once per technology indicator — at most 5 times in total;
duplicate-freedom of the whole field fails. -/
theorem analyze_company_tech_count_bound (url : String) (page : Page) (p : CompanyProfile)
    (h : analyze_company url (.ok page) = .profile p) (t : String) :
    p.technologies.count t ≤ 5 := by
  obtain ⟨-, ht, -⟩ := analyze_company_profile_lists url page p h
  rw [ht]
  exact keywordWindows_count_le _ _ _ _ techsInWindow_count_le_one t

/-- Witness for C5's amended claim at a successfully analyzed page. -/
theorem analyze_company_tech_count_bound_witness :
    analyze_company "https://b.example" (.ok ⟨some "Beta LLC", [], [], ""⟩) =
      .profile ⟨"Beta LLC", "No description found", none, "https://b.example", [], [], []⟩ ∧
    (CompanyProfile.mk "Beta LLC" "No description found" none "https://b.example"
      [] [] []).technologies.count "react" ≤ 5 :=
  ⟨rfl, analyze_company_tech_count_bound "https://b.example" ⟨some "Beta LLC", [], [], ""⟩
    _ rfl "react"⟩

/-- C6 counterexample: for a model response whose `name` field is JSON
`null`, `cv_data.get('name', '[Your Name]')` returns `None` — the
default fires only when the key is *absent* — so `extracted_name` is
`None`, not the placeholder sentinel the claim requires. -/
theorem analyze_cv_null_name_counterexample :
    (analyze_cv "cv text"
      (.content "\x7b\"name\": null\x7d" (some (.obj [("name", PyJson.null)])))).extracted_name =
      PyJson.null ∧
    PyJson.null ≠ PyJson.str "[Your Name]" := by
  constructor
  · rfl
  · intro hh
    exact PyJson.noConfusion hh

/-- C6 (corrected): `extracted_name` is the placeholder sentinel when
the model call raises, when the response fails to parse (and lacks the
legacy `NAME:` prefix, which instead yields the stripped remainder of
the first line), when the parsed object has no `name` key, or when
rendering the analysis text raises (caught by the outer handler); when
the parsed object has a `name` key and rendering succeeds, the key's
value — whatever it is, including JSON `null` — is passed through
unchanged.  No exception escapes on any path (`analyze_cv` is total by
construction). -/
theorem analyze_cv_extracted_name_characterization :
    (∀ ct m, (analyze_cv ct (.exn m)).extracted_name = .str "[Your Name]") ∧
    (∀ ct raw, pyStartsWith raw "NAME:" = false →
      (analyze_cv ct (.content raw none)).extracted_name = .str "[Your Name]") ∧
    (∀ ct raw, pyStartsWith raw "NAME:" = true →
      (analyze_cv ct (.content raw none)).extracted_name =
        .str (pyStrip (pyReplace ((pySplitChar '\n' raw).headD "") "NAME:" ""))) ∧
    (∀ ct raw fs, renderOk (renderAnalysis fs) = true → pyGetOpt fs "name" = none →
      (analyze_cv ct (.content raw (some (.obj fs)))).extracted_name = .str "[Your Name]") ∧
    (∀ ct raw fs v, renderOk (renderAnalysis fs) = true → pyGetOpt fs "name" = some v →
      (analyze_cv ct (.content raw (some (.obj fs)))).extracted_name = v) ∧
    (∀ ct raw fs, renderOk (renderAnalysis fs) = false →
      (analyze_cv ct (.content raw (some (.obj fs)))).extracted_name = .str "[Your Name]") := by
  refine ⟨fun ct m => rfl, ?_, ?_, ?_, ?_, ?_⟩
  · intro ct raw h
    simp [analyze_cv, h]
  · intro ct raw h
    simp [analyze_cv, h]
  · intro ct raw fs hr hg
    simp only [analyze_cv]
    cases hra : renderAnalysis fs with
    | ok txt => simp [pyGet, hg]
    | error u => rfl
  · intro ct raw fs v hr hg
    simp only [analyze_cv]
    cases hra : renderAnalysis fs with
    | ok txt => simp [pyGet, hg]
    | error u => rw [hra] at hr; simp [renderOk] at hr
  · intro ct raw fs hr
    simp only [analyze_cv]
    cases hra : renderAnalysis fs with
    | ok txt => rw [hra] at hr; simp [renderOk] at hr
    | error u => rfl

/-- Witness for C6's amended claim: a well-formed response with
`name: "Jane Doe"` yields `"Jane Doe"`, and a raising model call yields
the placeholder. -/
theorem analyze_cv_extracted_name_characterization_witness :
    renderOk (renderAnalysis [("name", PyJson.str "Jane Doe")]) = true ∧
    pyGetOpt [("name", PyJson.str "Jane Doe")] "name" = some (PyJson.str "Jane Doe") ∧
    (analyze_cv "cv"
      (.content "resp" (some (.obj [("name", PyJson.str "Jane Doe")])))).extracted_name =
      PyJson.str "Jane Doe" ∧
    (analyze_cv "cv" (.exn "model down")).extracted_name = PyJson.str "[Your Name]" :=
  ⟨rfl, rfl,
   analyze_cv_extracted_name_characterization.2.2.2.2.1 "cv" "resp"
     [("name", PyJson.str "Jane Doe")] (PyJson.str "Jane Doe") rfl rfl,
   analyze_cv_extracted_name_characterization.1 "cv" "model down"⟩

/-- C8 (confirmed): the splitter on the spec's example output yields
`short = "Hello there.\n"` and `medium = "Longer text.\n"`; in general
the pointer starts at `short`, marker lines only switch it, and every
non-marker line is appended (plus a newline) to the current buffer —
here stated for marker-free runs: they land wholly in the current
(initial) buffer in order, leaving the other buffer untouched. -/
theorem cover_letter_splitter_behaviour :
    splitVersions "1. Short version\nHello there.\n2. Medium version\nLonger text." =
      ⟨"Hello there.\n", "Longer text.\n"⟩ ∧
    (∀ ls acc, (ls.all fun l => !isShortMarker l && !isMediumMarker l) = true →
      splitLines ls .short acc = ⟨acc.short ++ joinNL ls, acc.medium⟩) := by
  constructor
  · rfl
  · intro ls
    induction ls with
    | nil =>
      intro acc _
      rcases acc with ⟨s, m⟩
      simp [splitLines, joinNL, str_append_empty]
    | cons l ls ih =>
      intro acc h
      simp only [List.all_cons, Bool.and_eq_true, Bool.not_eq_true'] at h
      obtain ⟨⟨h1, h2⟩, hrest⟩ := h
      have hrest' : (ls.all fun l => !isShortMarker l && !isMediumMarker l) = true := by
        simp only [List.all_eq_true, Bool.and_eq_true, Bool.not_eq_true'] at hrest ⊢
        exact hrest
      simp only [splitLines, h1, h2, Bool.false_eq_true, if_false]
      rw [ih _ hrest']
      simp [joinNL, str_append_assoc]

/-- Witness for C8's marker-free conjunct on a one-line run. -/
theorem cover_letter_splitter_behaviour_witness :
    ((["Hello there."].all fun l => !isShortMarker l && !isMediumMarker l) = true) ∧
    splitLines ["Hello there."] .short ⟨"", ""⟩ =
      ⟨"" ++ joinNL ["Hello there."], ""⟩ :=
  ⟨by decide, cover_letter_splitter_behaviour.2 ["Hello there."] ⟨"", ""⟩ (by decide)⟩
